import Mathlib

/-!
# OpenPilot: airspeed module and triple-buffered camera acquisition

A shallow embedding of

* `flight/Modules/Airspeed/revolution/airspeed.c` (module start-up, module
  initialisation and one iteration of the airspeed task loop), and
* `include/rtslam/hardwareSensorCameraFirewire.hpp` (the object state of the
  triple-buffered camera sensor and its `getFreq` accessor),

followed by the properties proved about them.  Floating point quantities are
carried over exact rational arithmetic; calls into FreeRTOS and the UAVObject
layer are recorded in a call trace.
-/

namespace Airspeed

/-! ## Build configuration (`airspeed.c`, lines 50-68) -/

/-- The preprocessor symbols the module tests. -/
structure Build where
  PIOS_INCLUDE_GPS : Bool
  PIOS_INCLUDE_MPXV5004 : Bool
  PIOS_INCLUDE_MPXV7002 : Bool
  PIOS_INCLUDE_ETASV3 : Bool
  MODULE_AIRSPEED_BUILTIN : Bool
  deriving DecidableEq, Repr

/-- Line 51: `#if defined (PIOS_INCLUDE_GPS)`. -/
def GPS_AIRSPEED_PRESENT (b : Build) : Bool := b.PIOS_INCLUDE_GPS

/-- Line 55: any of the three differential pressure sensors. -/
def BARO_AIRSPEED_PRESENT (b : Build) : Bool :=
  b.PIOS_INCLUDE_MPXV5004 || b.PIOS_INCLUDE_MPXV7002 || b.PIOS_INCLUDE_ETASV3

/-- Lines 59-68: the stack size chosen by the `#if` chain. -/
def STACK_SIZE_BYTES (b : Build) : Nat :=
  if GPS_AIRSPEED_PRESENT b && BARO_AIRSPEED_PRESENT b then 700
  else if GPS_AIRSPEED_PRESENT b then 600
  else if BARO_AIRSPEED_PRESENT b then 550
  else 0

/-- Lines 65-67: defined only in the last branch of the `#if` chain. -/
def NO_AIRSPEED_SENSOR_PRESENT (b : Build) : Bool :=
  if GPS_AIRSPEED_PRESENT b && BARO_AIRSPEED_PRESENT b then false
  else if GPS_AIRSPEED_PRESENT b then false
  else if BARO_AIRSPEED_PRESENT b then false
  else true

/-- Constants of the generated UAVObject headers and of FreeRTOS, which the
module only names. -/
structure Consts where
  HWSETTINGS_OPTIONALMODULES_NUMELEM : Nat
  HWSETTINGS_OPTIONALMODULES_AIRSPEED : Nat
  HWSETTINGS_OPTIONALMODULES_ENABLED : Nat
  HWSETTINGS_ADCROUTING_NUMELEM : Nat
  HWSETTINGS_ADCROUTING_ANALOGAIRSPEED : Nat
  BAROAIRSPEED_BAROCONNECTED_FALSE : Nat
  BAROAIRSPEED_BAROCONNECTED_TRUE : Nat
  AIRSPEEDSETTINGS_AIRSPEEDSENSORTYPE_GPSONLY : Nat
  portTICK_RATE_MS : Nat

/-! ## Module state and the calls it makes -/

/-- Calls into FreeRTOS, the task monitor and the UAVObject layer. -/
inductive Call where
  | xTaskCreate (usStackDepth : Nat)
  | TaskMonitorAdd
  | HwSettingsInitialize
  | BaroAirspeedInitialize
  | AirspeedSettingsInitialize
  | AirspeedSettingsConnectCallback
  deriving DecidableEq, Repr

/-- The file-scope variables written by start-up code (lines 86-94) together
with the trace of calls made so far, oldest first. -/
structure Module where
  airspeedEnabled : Bool
  airspeedADCPin : Int
  calls : List Call
  deriving DecidableEq, Repr

/-- The HwSettings object as read by `AirspeedInitialize`. -/
structure HwSettings where
  optionalModules : List Nat
  adcRouting : List Nat
  deriving DecidableEq, Repr

/-- Lines 111-126. -/
def AirspeedStart (b : Build) (m : Module) : Int × Module :=
  if NO_AIRSPEED_SENSOR_PRESENT b then (-1, m)
  else if m.airspeedEnabled == false then (-1, m)
  else
    (0, { m with calls := m.calls ++
            [Call.xTaskCreate (STACK_SIZE_BYTES b / 4), Call.TaskMonitorAdd] })

/-- Lines 156-160: the last index routed to the analog airspeed sensor wins. -/
def scanADCRouting (c : Consts) (adcRouting : List Nat) (pin : Int) : Int :=
  (List.range c.HWSETTINGS_ADCROUTING_NUMELEM).foldl
    (fun p i =>
      if adcRouting.getD i 0 = c.HWSETTINGS_ADCROUTING_ANALOGAIRSPEED then (i : Int) else p)
    pin

/-- Lines 151-169: what follows the enable test. -/
def initializeTail (b : Build) (c : Consts) (hw : HwSettings) (m : Module) : Int × Module :=
  let m1 : Module :=
    if BARO_AIRSPEED_PRESENT b then
      { m with airspeedADCPin := scanADCRouting c hw.adcRouting m.airspeedADCPin }
    else m
  (0, { m1 with calls := m1.calls ++
          [Call.BaroAirspeedInitialize, Call.AirspeedSettingsInitialize,
           Call.AirspeedSettingsConnectCallback] })

/-- Lines 132-170. -/
def AirspeedInitialize (b : Build) (c : Consts) (hw : HwSettings) (m : Module) :
    Int × Module :=
  if b.MODULE_AIRSPEED_BUILTIN then
    initializeTail b c hw { m with airspeedEnabled := true }
  else
    let m0 : Module := { m with calls := m.calls ++ [Call.HwSettingsInitialize] }
    if hw.optionalModules.getD c.HWSETTINGS_OPTIONALMODULES_AIRSPEED 0
        = c.HWSETTINGS_OPTIONALMODULES_ENABLED then
      initializeTail b c hw { m0 with airspeedEnabled := true }
    else
      (-1, { m0 with airspeedEnabled := false })

/-! ## The airspeed task (lines 177-293) -/

/-- The fields of the BaroAirspeed UAVObject that the task reads or writes. -/
structure BaroAirspeedData where
  BaroConnected : Nat
  SensorValue : Nat
  CAS : ℚ
  GPSAirspeed : ℚ
  TrueAirspeed : ℚ
  Airspeed : ℚ
  deriving DecidableEq, Repr

/-- The variables that live across iterations of the task loop: the locals
`lastSysTime`, `lastGPSTime`, `airspeedErrInt` and the file-scope variables
the settings and GPS callbacks write. -/
structure TaskState where
  lastSysTime : Nat
  lastGPSTime : Nat
  airspeedErrInt : ℚ
  gpsNew : Bool
  airspeedSensorType : Nat
  gpsSamplePeriod_ms : Nat
  airspeedADCPin : Int
  deriving DecidableEq, Repr

/-- What the rest of the firmware supplies during one iteration: the stored
object, the sensor driver `baro_airspeedGet` (it may rewrite the object and
`lastSysTime`), the barometer temperature, `sqrtf`, and `gps_airspeedGet`
(it receives the current `v_air_GPS` and stores its estimate there). -/
structure Env where
  BaroAirspeedGet : BaroAirspeedData
  baro_airspeedGet : BaroAirspeedData → Nat → Nat → Int → BaroAirspeedData × Nat
  BaroAltitudeTemperatureGet : ℚ
  sqrtf : ℚ → ℚ
  gps_airspeedGet : ℚ → ℚ

/-- Line 73. -/
def SAMPLING_DELAY_MS_FALLTHROUGH : Nat := 50

/-- Line 75. -/
def GPS_AIRSPEED_BIAS_KP : ℚ := 1 / 100

/-- Line 76. -/
def GPS_AIRSPEED_BIAS_KI : ℚ := 1 / 100

/-- Line 78. -/
def GPS_AIRSPEED_TIME_CONSTANT_MS : ℚ := 500

/-- Line 214. -/
def T0 : ℚ := 28815 / 100

/-- Width of `portTickType` on the target. -/
def tickModulus : Nat := 2 ^ 32

/-- FreeRTOS `vTaskDelayUntil`: the wake time advances by the increment. -/
def vTaskDelayUntil (previousWakeTime increment : Nat) : Nat :=
  (previousWakeTime + increment) % tickModulus

/-- Lines 264-265: the two conditional assignments that saturate the integral. -/
def saturate (x : ℚ) : ℚ :=
  let x1 := if x > 5 / GPS_AIRSPEED_BIAS_KI then 5 / GPS_AIRSPEED_BIAS_KI else x
  if x1 < -(5 / GPS_AIRSPEED_BIAS_KI) then -(5 / GPS_AIRSPEED_BIAS_KI) else x1

/-- Lines 260-265: error and saturated error integral. -/
def integrateError (airspeedErrInt airspeed_tas_baro v_air_GPS delT : ℚ) : ℚ :=
  let airspeedErr := v_air_GPS - airspeed_tas_baro
  saturate (airspeedErrInt + airspeedErr * delT)

/-- Lines 206-229: the sensor branch or the fall-through.  Returns the object,
`lastSysTime` and `airspeed_tas_baro`. -/
def sensorStage (b : Build) (c : Consts) (env : Env) (st : TaskState)
    (airspeedData : BaroAirspeedData) : BaroAirspeedData × Nat × ℚ :=
  if BARO_AIRSPEED_PRESENT b
      && decide (st.airspeedSensorType ≠ c.AIRSPEEDSETTINGS_AIRSPEEDSENSORTYPE_GPSONLY) then
    let r := env.baro_airspeedGet airspeedData st.lastSysTime st.airspeedSensorType
      st.airspeedADCPin
    let baroTemperature := env.BaroAltitudeTemperatureGet - 5
    (r.1, r.2,
      r.1.CAS * env.sqrtf ((baroTemperature + 27315 / 100) / T0)
        + st.airspeedErrInt * GPS_AIRSPEED_BIAS_KI)
  else
    ({ airspeedData with
        BaroConnected := c.BAROAIRSPEED_BAROCONNECTED_FALSE, SensorValue := 12345 },
      vTaskDelayUntil st.lastSysTime (SAMPLING_DELAY_MS_FALLTHROUGH / c.portTICK_RATE_MS),
      0)

/-- Line 238: the unsigned tick difference, converted to float and divided by
`1000.0f`. -/
def elapsed (lastSysTime lastGPSTime : Nat) : ℚ :=
  (((lastSysTime % tickModulus + tickModulus - lastGPSTime % tickModulus) % tickModulus
    : Nat) : ℚ) / 1000

/-- Lines 239-244: is a fresh GPS estimate consumed in this iteration? -/
def gpsDue (b : Build) (c : Consts) (st : TaskState) (delT : ℚ) : Bool :=
  if BARO_AIRSPEED_PRESENT b then
    (decide (delT > (c.portTICK_RATE_MS : ℚ))
      || decide (st.airspeedSensorType = c.AIRSPEEDSETTINGS_AIRSPEEDSENSORTYPE_GPSONLY))
    && st.gpsNew
  else st.gpsNew

/-- Lines 253-278: correction of the estimate by a valid GPS airspeed.
Returns the object and `airspeedErrInt`. -/
def gpsCorrection (b : Build) (c : Consts) (gpsSamplePeriod_ms : Nat)
    (airspeedData : BaroAirspeedData) (airspeedErrInt airspeed_tas_baro v_air_GPS delT : ℚ) :
    BaroAirspeedData × ℚ :=
  if v_air_GPS > 0 then
    let d1 := { airspeedData with GPSAirspeed := v_air_GPS }
    if BARO_AIRSPEED_PRESENT b
        && decide (d1.BaroConnected = c.BAROAIRSPEED_BAROCONNECTED_TRUE) then
      let airspeedErr := v_air_GPS - airspeed_tas_baro
      ({ d1 with TrueAirspeed := airspeed_tas_baro + airspeedErr * GPS_AIRSPEED_BIAS_KP },
        integrateError airspeedErrInt airspeed_tas_baro v_air_GPS delT)
    else
      let alpha : ℚ := (gpsSamplePeriod_ms : ℚ)
        / ((gpsSamplePeriod_ms : ℚ) + GPS_AIRSPEED_TIME_CONSTANT_MS)
      ({ d1 with TrueAirspeed := v_air_GPS * alpha + d1.TrueAirspeed * (1 - alpha) },
        airspeedErrInt)
  else (airspeedData, airspeedErrInt)

/-- Lines 282-287: legacy UAVO support. -/
def legacyAirspeed (c : Consts) (airspeedData : BaroAirspeedData) : BaroAirspeedData :=
  if airspeedData.BaroConnected = c.BAROAIRSPEED_BAROCONNECTED_FALSE then
    { airspeedData with Airspeed := airspeedData.TrueAirspeed }
  else
    { airspeedData with Airspeed := airspeedData.CAS }

/-- Lines 231-279: the GPS stage, compiled in only with `GPS_AIRSPEED_PRESENT`.
Returns the object and the task state. -/
def gpsStage (b : Build) (c : Consts) (env : Env) (st : TaskState)
    (airspeedData : BaroAirspeedData) (lastSysTime : Nat) (airspeed_tas_baro : ℚ) :
    BaroAirspeedData × TaskState :=
  let st1 := { st with lastSysTime := lastSysTime }
  if GPS_AIRSPEED_PRESENT b then
    let delT := elapsed lastSysTime st.lastGPSTime
    let due := gpsDue b c st delT
    let v_air_GPS : ℚ := if due then env.gps_airspeedGet (-1) else -1
    let st2 : TaskState :=
      if due then
        { st1 with
            lastGPSTime := if BARO_AIRSPEED_PRESENT b then lastSysTime else st1.lastGPSTime,
            gpsNew := false }
      else st1
    let r := gpsCorrection b c st.gpsSamplePeriod_ms airspeedData st.airspeedErrInt
      airspeed_tas_baro v_air_GPS delT
    (r.1, { st2 with airspeedErrInt := r.2 })
  else (airspeedData, st1)

/-- Lines 203-290: one iteration of the task loop.  The second component is
the object handed to `BaroAirspeedSet`. -/
def airspeedTaskIteration (b : Build) (c : Consts) (env : Env) (st : TaskState) :
    TaskState × BaroAirspeedData :=
  let s := sensorStage b c env st env.BaroAirspeedGet
  let g := gpsStage b c env st s.1 s.2.1 s.2.2
  (g.2, legacyAirspeed c g.1)

end Airspeed

namespace Camera

/-! ## Object state (`hardwareSensorCameraFirewire.hpp`, lines 47-63) -/

/-- The data members of `HardwareSensorCameraFirewire` that carry the
triple-buffering state.  `F` stands for `double`. -/
structure HardwareSensorCameraFirewire (F : Type) where
  buff_in_use : Nat
  buff_ready : Nat
  buff_write : Nat
  image_count : Nat
  realFreq : F
  no_more_data : Bool
  first_index : Nat
  found_first : Int
  mode : Int

/-- Line 102: `double getFreq() { return realFreq; }`, as the returned value
paired with the object after the call. -/
def getFreq {F : Type} (self : HardwareSensorCameraFirewire F) :
    F × HardwareSensorCameraFirewire F :=
  (self.realFreq, self)

/-! ## The triple-buffer protocol

`preloadTask` and `acquireRaw` are only declared in the header; their bodies
(`hardwareSensorCameraFirewire.cpp`) are modelled from the specification. -/

/-- Modelled from the spec: the TripleBufferStore of §2-§4.1, whose code
(`hardwareSensorCameraFirewire.cpp`) is missing.  It is the object state
together with the sequence number held by each of the three FrameBuffers (§3)
and the fact "a new frame has been published since the last acquire" (§4.1). -/
structure Store (F : Type) where
  cam : HardwareSensorCameraFirewire F
  seq : Nat → Nat
  unseen : Bool

/-- Modelled from the spec: "the remaining third slot" of §4.1 (the code of
`preloadTask` is missing): the first of the slots 0, 1, 2 that is neither `a`
nor `b`. -/
def thirdSlot (a b : Nat) : Nat :=
  if 0 ≠ a ∧ 0 ≠ b then 0 else if 1 ≠ a ∧ 1 ≠ b then 1 else 2

/-- Modelled from the spec: construction (§3 Lifecycle; the constructor body is
missing).  The three slots get distinct roles, no frame has been counted or
published, and the stream is not done.  `freq` is the initial frequency
estimate (§4.4) and `mode` the operating mode. -/
def construct {F : Type} (freq : F) (mode : Int) : Store F :=
  { cam :=
      { buff_in_use := 0, buff_write := 1, buff_ready := 2, image_count := 0,
        realFreq := freq, no_more_data := false, first_index := 0, found_first := 0,
        mode := mode }
    seq := fun _ => 0
    unseen := false }

/-- Modelled from the spec: `publish` of §4.1 (the body of `preloadTask` is
missing).  The previous Ready slot becomes the new Write target, unless it
equals InUse, in which case the remaining third slot is used; the just-filled
slot becomes Ready; frameCounter increments; the Frequency Estimator is
updated, `freq` being its new estimate.  The frame just filled carries the new
frameCounter value as its sequence number. -/
def publish {F : Type} (s : Store F) (freq : F) : Store F :=
  let c := s.cam
  { cam :=
      { c with
        buff_write :=
          if c.buff_ready ≠ c.buff_in_use then c.buff_ready
          else thirdSlot c.buff_write c.buff_in_use
        buff_ready := c.buff_write
        image_count := c.image_count + 1
        realFreq := freq }
    seq := fun i => if i = c.buff_write then c.image_count + 1 else s.seq i
    unseen := true }

/-- Modelled from the spec: the handle and sequence number `acquire` returns
(§4.1, §6). -/
structure FrameHandle where
  slot : Nat
  seq : Nat
  deriving DecidableEq, Repr

/-- Modelled from the spec: the outcome of a completed `acquire` (§6): a handle
with status OK, or `END_OF_STREAM`. -/
inductive Acquired where
  | OK (frame : FrameHandle)
  | END_OF_STREAM
  deriving DecidableEq, Repr

/-- Modelled from the spec: `acquire` of §4.1 (the body of `acquireRaw` is
missing).  With an unseen Ready frame it makes Ready the new InUse and returns
its slot and sequence number; the previous InUse slot becomes reclaimable, that
is, it takes the Ready index that the next `publish` turns into its Write
target.  Without one it returns `END_OF_STREAM` if `done` is set, and otherwise
blocks (`none`). -/
def acquire {F : Type} (s : Store F) : Option (Acquired × Store F) :=
  if s.unseen then
    some (Acquired.OK ⟨s.cam.buff_ready, s.seq s.cam.buff_ready⟩,
      { s with
        cam := { s.cam with buff_in_use := s.cam.buff_ready, buff_ready := s.cam.buff_in_use }
        unseen := false })
  else if s.cam.no_more_data then some (Acquired.END_OF_STREAM, s)
  else none

/-- Modelled from the spec: the Producer Task reaching permanent exhaustion or
hardware loss (§4.2): it sets `done`. -/
def finish {F : Type} (s : Store F) : Store F :=
  { s with cam := { s.cam with no_more_data := true } }

/-- Modelled from the spec: the steps the two sides can take (§5): the producer
publishes a filled frame or declares the stream done; the consumer calls
`acquire`. -/
inductive Step (F : Type) where
  | publish (freq : F)
  | acquire
  | done

/-- Modelled from the spec: one step of the store (§4.1, §4.4).  `Done` is
terminal, so the producer publishes only while `done` is unset; an `acquire`
that blocks has not returned and leaves the store as it is.  The second
component is what a completed `acquire` returned. -/
def step {F : Type} (s : Store F) : Step F → Store F × Option Acquired
  | Step.publish freq => if s.cam.no_more_data then (s, none) else (publish s freq, none)
  | Step.acquire =>
    match acquire s with
    | some (r, s1) => (s1, some r)
    | none => (s, none)
  | Step.done => (finish s, none)

/-- Modelled from the spec: an interleaving of producer and consumer steps,
with the results of the completed `acquire` calls in order. -/
def run {F : Type} (s : Store F) : List (Step F) → Store F × List Acquired
  | [] => (s, [])
  | e :: es =>
    let r := step s e
    let rest := run r.1 es
    (rest.1, r.2.toList ++ rest.2)

/-- The sequence numbers delivered with status OK, in order. -/
def okSeqs : List Acquired → List Nat
  | [] => []
  | Acquired.OK h :: rs => h.seq :: okSeqs rs
  | Acquired.END_OF_STREAM :: rs => okSeqs rs

/-- The number of `publish` steps in an interleaving. -/
def publishCount {F : Type} : List (Step F) → Nat
  | [] => 0
  | Step.publish _ :: es => publishCount es + 1
  | _ :: es => publishCount es

/-- Each role index names one of the three slots and no two roles name the
same slot. -/
def RolesDistinct {F : Type} (c : HardwareSensorCameraFirewire F) : Prop :=
  c.buff_write < 3 ∧ c.buff_ready < 3 ∧ c.buff_in_use < 3 ∧
  c.buff_write ≠ c.buff_ready ∧ c.buff_write ≠ c.buff_in_use ∧
  c.buff_ready ≠ c.buff_in_use

end Camera

/-! # Properties -/

namespace Airspeed

/-! ## Module start-up and initialisation -/

/-- C7: `AirspeedStart` returns 0 exactly when an airspeed source (GPS or a
baro sensor) is compiled in and `airspeedEnabled` is true, and then it has
created the task (stack depth `STACK_SIZE_BYTES/4`) and registered it with the
task monitor; in every other case it returns -1 and the module state, call
trace included, is unchanged. -/
theorem AirspeedStart_returns (b : Build) (m : Module) :
    ((AirspeedStart b m).1 = 0 ↔
      (GPS_AIRSPEED_PRESENT b = true ∨ BARO_AIRSPEED_PRESENT b = true)
        ∧ m.airspeedEnabled = true) ∧
    ((GPS_AIRSPEED_PRESENT b = true ∨ BARO_AIRSPEED_PRESENT b = true)
        ∧ m.airspeedEnabled = true →
      AirspeedStart b m =
        (0, { m with calls := m.calls ++
                [Call.xTaskCreate (STACK_SIZE_BYTES b / 4), Call.TaskMonitorAdd] })) ∧
    (¬ ((GPS_AIRSPEED_PRESENT b = true ∨ BARO_AIRSPEED_PRESENT b = true)
        ∧ m.airspeedEnabled = true) →
      AirspeedStart b m = (-1, m)) := by
  unfold AirspeedStart NO_AIRSPEED_SENSOR_PRESENT
  cases GPS_AIRSPEED_PRESENT b <;> cases BARO_AIRSPEED_PRESENT b <;>
    cases m.airspeedEnabled <;> simp

/-- Instance of `AirspeedStart_returns`: a GPS-only build with the module
enabled, and the same build with the module disabled. -/
theorem AirspeedStart_returns_witness :
    AirspeedStart ⟨true, false, false, false, false⟩ ⟨true, -1, []⟩
        = (0, ⟨true, -1, [Call.xTaskCreate 150, Call.TaskMonitorAdd]⟩)
    ∧ AirspeedStart ⟨true, false, false, false, false⟩ ⟨false, -1, []⟩
        = (-1, ⟨false, -1, []⟩) :=
  ⟨(AirspeedStart_returns ⟨true, false, false, false, false⟩ ⟨true, -1, []⟩).2.1
      (by decide),
    (AirspeedStart_returns ⟨true, false, false, false, false⟩ ⟨false, -1, []⟩).2.2
      (by decide)⟩

theorem initializeTail_fst (b : Build) (c : Consts) (hw : HwSettings) (m : Module) :
    (initializeTail b c hw m).1 = 0 := rfl

theorem initializeTail_enabled (b : Build) (c : Consts) (hw : HwSettings) (m : Module) :
    (initializeTail b c hw m).2.airspeedEnabled = m.airspeedEnabled := by
  unfold initializeTail
  cases BARO_AIRSPEED_PRESENT b <;> simp

theorem initializeTail_calls (b : Build) (c : Consts) (hw : HwSettings) (m : Module) :
    (initializeTail b c hw m).2.calls = m.calls ++
      [Call.BaroAirspeedInitialize, Call.AirspeedSettingsInitialize,
        Call.AirspeedSettingsConnectCallback] := by
  unfold initializeTail
  cases BARO_AIRSPEED_PRESENT b <;> simp

/-- C8: in a build where the module is not built in, `AirspeedInitialize`
returns -1 exactly when the AIRSPEED entry of the optional-modules array is not
ENABLED; then `airspeedEnabled` is false afterwards and the only call made is
`HwSettingsInitialize` (no BaroAirspeed/AirspeedSettings initialisation, no
callback connected).  Otherwise it returns 0 with `airspeedEnabled` true, having
initialised both objects and then connected the settings callback. -/
theorem AirspeedInitialize_returns (b : Build) (c : Consts) (hw : HwSettings) (m : Module)
    (hb : b.MODULE_AIRSPEED_BUILTIN = false) :
    ((AirspeedInitialize b c hw m).1 = -1 ↔
      hw.optionalModules.getD c.HWSETTINGS_OPTIONALMODULES_AIRSPEED 0
        ≠ c.HWSETTINGS_OPTIONALMODULES_ENABLED) ∧
    (hw.optionalModules.getD c.HWSETTINGS_OPTIONALMODULES_AIRSPEED 0
        ≠ c.HWSETTINGS_OPTIONALMODULES_ENABLED →
      AirspeedInitialize b c hw m =
        (-1, { m with airspeedEnabled := false,
                      calls := m.calls ++ [Call.HwSettingsInitialize] })) ∧
    (hw.optionalModules.getD c.HWSETTINGS_OPTIONALMODULES_AIRSPEED 0
        = c.HWSETTINGS_OPTIONALMODULES_ENABLED →
      (AirspeedInitialize b c hw m).1 = 0 ∧
      (AirspeedInitialize b c hw m).2.airspeedEnabled = true ∧
      (AirspeedInitialize b c hw m).2.calls = m.calls ++
        [Call.HwSettingsInitialize, Call.BaroAirspeedInitialize,
          Call.AirspeedSettingsInitialize, Call.AirspeedSettingsConnectCallback]) := by
  unfold AirspeedInitialize
  generalize hw.optionalModules.getD c.HWSETTINGS_OPTIONALMODULES_AIRSPEED 0 = v
  by_cases h : v = c.HWSETTINGS_OPTIONALMODULES_ENABLED
  · simp [hb, h, initializeTail_fst, initializeTail_enabled, initializeTail_calls]
  · simp [hb, h]

/-- Instance of `AirspeedInitialize_returns`: HwSettings with the AIRSPEED
entry (index 1) disabled. -/
theorem AirspeedInitialize_returns_witness :
    AirspeedInitialize ⟨true, true, false, false, false⟩ ⟨4, 1, 1, 8, 3, 0, 1, 2, 1⟩
        ⟨[1, 0, 0, 1], [0, 0, 3, 0, 0, 0, 0, 0]⟩ ⟨true, -1, []⟩
      = (-1, ⟨false, -1, [Call.HwSettingsInitialize]⟩) :=
  (AirspeedInitialize_returns ⟨true, true, false, false, false⟩ ⟨4, 1, 1, 8, 3, 0, 1, 2, 1⟩
    ⟨[1, 0, 0, 1], [0, 0, 3, 0, 0, 0, 0, 0]⟩ ⟨true, -1, []⟩ rfl).2.1 (by decide)

/-! ## The task loop -/

theorem legacyAirspeed_fields (c : Consts) (d : BaroAirspeedData) :
    (legacyAirspeed c d).BaroConnected = d.BaroConnected ∧
    (legacyAirspeed c d).TrueAirspeed = d.TrueAirspeed ∧
    (legacyAirspeed c d).CAS = d.CAS := by
  unfold legacyAirspeed
  split <;> simp

theorem legacyAirspeed_selects (c : Consts) (d : BaroAirspeedData) :
    (legacyAirspeed c d).Airspeed =
      if d.BaroConnected = c.BAROAIRSPEED_BAROCONNECTED_FALSE then d.TrueAirspeed
      else d.CAS := by
  unfold legacyAirspeed
  split <;> simp

theorem gpsCorrection_BaroConnected (b : Build) (c : Consts) (n : Nat)
    (d : BaroAirspeedData) (e t v dT : ℚ) :
    (gpsCorrection b c n d e t v dT).1.BaroConnected = d.BaroConnected := by
  unfold gpsCorrection
  dsimp only
  split_ifs <;> rfl

theorem gpsStage_BaroConnected (b : Build) (c : Consts) (env : Env) (st : TaskState)
    (d : BaroAirspeedData) (t : Nat) (tas : ℚ) :
    (gpsStage b c env st d t tas).1.BaroConnected = d.BaroConnected := by
  unfold gpsStage
  split
  · exact gpsCorrection_BaroConnected _ _ _ _ _ _ _ _
  · rfl

theorem sensorStage_fallthrough (b : Build) (c : Consts) (env : Env) (st : TaskState)
    (d : BaroAirspeedData)
    (h : BARO_AIRSPEED_PRESENT b = false
      ∨ st.airspeedSensorType = c.AIRSPEEDSETTINGS_AIRSPEEDSENSORTYPE_GPSONLY) :
    (sensorStage b c env st d).1.BaroConnected = c.BAROAIRSPEED_BAROCONNECTED_FALSE := by
  unfold sensorStage
  rcases h with h | h <;> simp [h]

/-- C9: the object handed to `BaroAirspeedSet` at the end of an iteration has
`Airspeed = TrueAirspeed` when its `BaroConnected` is FALSE and
`Airspeed = CAS` otherwise; when the fall-through branch runs (no baro sensor
compiled in, or sensor type GPS-only) `BaroConnected` is FALSE and `Airspeed`
equals `TrueAirspeed`. -/
theorem legacy_airspeed_selection (b : Build) (c : Consts) (env : Env) (st : TaskState) :
    ((airspeedTaskIteration b c env st).2.BaroConnected
        = c.BAROAIRSPEED_BAROCONNECTED_FALSE →
      (airspeedTaskIteration b c env st).2.Airspeed
        = (airspeedTaskIteration b c env st).2.TrueAirspeed) ∧
    ((airspeedTaskIteration b c env st).2.BaroConnected
        ≠ c.BAROAIRSPEED_BAROCONNECTED_FALSE →
      (airspeedTaskIteration b c env st).2.Airspeed
        = (airspeedTaskIteration b c env st).2.CAS) ∧
    (BARO_AIRSPEED_PRESENT b = false
        ∨ st.airspeedSensorType = c.AIRSPEEDSETTINGS_AIRSPEEDSENSORTYPE_GPSONLY →
      (airspeedTaskIteration b c env st).2.BaroConnected
        = c.BAROAIRSPEED_BAROCONNECTED_FALSE ∧
      (airspeedTaskIteration b c env st).2.Airspeed
        = (airspeedTaskIteration b c env st).2.TrueAirspeed) := by
  have hf := legacyAirspeed_fields c
    (gpsStage b c env st (sensorStage b c env st env.BaroAirspeedGet).1
      (sensorStage b c env st env.BaroAirspeedGet).2.1
      (sensorStage b c env st env.BaroAirspeedGet).2.2).1
  have hs := legacyAirspeed_selects c
    (gpsStage b c env st (sensorStage b c env st env.BaroAirspeedGet).1
      (sensorStage b c env st env.BaroAirspeedGet).2.1
      (sensorStage b c env st env.BaroAirspeedGet).2.2).1
  have hg := gpsStage_BaroConnected b c env st
    (sensorStage b c env st env.BaroAirspeedGet).1
    (sensorStage b c env st env.BaroAirspeedGet).2.1
    (sensorStage b c env st env.BaroAirspeedGet).2.2
  simp only [airspeedTaskIteration]
  obtain ⟨h1, h2, h3⟩ := hf
  rw [h1, h2, h3, hs]
  refine ⟨fun h => by rw [if_pos h], fun h => by rw [if_neg h], fun h => ?_⟩
  have hft := sensorStage_fallthrough b c env st env.BaroAirspeedGet h
  have hc := hg.trans hft
  exact ⟨hc, by rw [if_pos hc]⟩

/-- Instance of `legacy_airspeed_selection`: a GPS-only sensor type on a build
with both sources; a fresh GPS estimate of 20 m/s is filtered with
`alpha = 1/2` into the previous true airspeed 10 m/s. -/
theorem legacy_airspeed_selection_witness :
    (airspeedTaskIteration ⟨true, true, false, false, false⟩ ⟨4, 1, 1, 8, 3, 0, 1, 2, 1⟩
        ⟨⟨1, 7, 12, 0, 10, 12⟩, fun d t _ _ => (d, t), 20, fun x => x, fun _ => 20⟩
        ⟨1000, 0, 0, true, 2, 500, -1⟩).2.Airspeed
      = (airspeedTaskIteration ⟨true, true, false, false, false⟩ ⟨4, 1, 1, 8, 3, 0, 1, 2, 1⟩
        ⟨⟨1, 7, 12, 0, 10, 12⟩, fun d t _ _ => (d, t), 20, fun x => x, fun _ => 20⟩
        ⟨1000, 0, 0, true, 2, 500, -1⟩).2.TrueAirspeed
    ∧ (airspeedTaskIteration ⟨true, true, false, false, false⟩ ⟨4, 1, 1, 8, 3, 0, 1, 2, 1⟩
        ⟨⟨1, 7, 12, 0, 10, 12⟩, fun d t _ _ => (d, t), 20, fun x => x, fun _ => 20⟩
        ⟨1000, 0, 0, true, 2, 500, -1⟩).2 = ⟨0, 12345, 12, 20, 15, 15⟩ :=
  ⟨((legacy_airspeed_selection ⟨true, true, false, false, false⟩ ⟨4, 1, 1, 8, 3, 0, 1, 2, 1⟩
      ⟨⟨1, 7, 12, 0, 10, 12⟩, fun d t _ _ => (d, t), 20, fun x => x, fun _ => 20⟩
      ⟨1000, 0, 0, true, 2, 500, -1⟩).2.2 (Or.inr rfl)).2,
    by
      norm_num [airspeedTaskIteration, sensorStage, gpsStage, gpsCorrection, gpsDue, elapsed,
        legacyAirspeed, BARO_AIRSPEED_PRESENT, GPS_AIRSPEED_PRESENT, vTaskDelayUntil,
        tickModulus, GPS_AIRSPEED_TIME_CONSTANT_MS, SAMPLING_DELAY_MS_FALLTHROUGH]⟩

theorem saturate_bounds (x : ℚ) : -500 ≤ saturate x ∧ saturate x ≤ 500 := by
  unfold saturate GPS_AIRSPEED_BIAS_KI
  norm_num
  split_ifs <;> constructor <;> linarith

theorem saturate_inside (x : ℚ) (h1 : -500 ≤ x) (h2 : x ≤ 500) : saturate x = x := by
  unfold saturate GPS_AIRSPEED_BIAS_KI
  norm_num
  split_ifs <;> linarith

/-- C10: with a baro sensor compiled in and connected and a valid GPS airspeed
`v_air_GPS > 0`, the updated `airspeedErrInt` lies in `[-5/KI, 5/KI]` where
`KI = 0.01` (so `5/KI = 500` and `airspeedErrInt * KI` is within 5 m/s of
zero), and it equals `previous + (v_air_GPS - airspeed_tas_baro) * delT`
whenever that value already lies in the interval (exact arithmetic). -/
theorem integral_saturation (b : Build) (c : Consts) (gpsSamplePeriod_ms : Nat)
    (d : BaroAirspeedData) (airspeedErrInt airspeed_tas_baro v_air_GPS delT : ℚ)
    (hb : BARO_AIRSPEED_PRESENT b = true) (hv : v_air_GPS > 0)
    (hc : d.BaroConnected = c.BAROAIRSPEED_BAROCONNECTED_TRUE) :
    GPS_AIRSPEED_BIAS_KI = 1 / 100 ∧
    -(5 / GPS_AIRSPEED_BIAS_KI) ≤
      (gpsCorrection b c gpsSamplePeriod_ms d airspeedErrInt airspeed_tas_baro
        v_air_GPS delT).2 ∧
    (gpsCorrection b c gpsSamplePeriod_ms d airspeedErrInt airspeed_tas_baro
        v_air_GPS delT).2 ≤ 5 / GPS_AIRSPEED_BIAS_KI ∧
    -5 ≤ (gpsCorrection b c gpsSamplePeriod_ms d airspeedErrInt airspeed_tas_baro
        v_air_GPS delT).2 * GPS_AIRSPEED_BIAS_KI ∧
    (gpsCorrection b c gpsSamplePeriod_ms d airspeedErrInt airspeed_tas_baro
        v_air_GPS delT).2 * GPS_AIRSPEED_BIAS_KI ≤ 5 ∧
    (-(5 / GPS_AIRSPEED_BIAS_KI) ≤ airspeedErrInt + (v_air_GPS - airspeed_tas_baro) * delT →
      airspeedErrInt + (v_air_GPS - airspeed_tas_baro) * delT ≤ 5 / GPS_AIRSPEED_BIAS_KI →
      (gpsCorrection b c gpsSamplePeriod_ms d airspeedErrInt airspeed_tas_baro
        v_air_GPS delT).2 = airspeedErrInt + (v_air_GPS - airspeed_tas_baro) * delT) := by
  have he : (gpsCorrection b c gpsSamplePeriod_ms d airspeedErrInt airspeed_tas_baro
        v_air_GPS delT).2
      = saturate (airspeedErrInt + (v_air_GPS - airspeed_tas_baro) * delT) := by
    unfold gpsCorrection integrateError
    simp [hb, hv, hc]
  have hk : (5 : ℚ) / GPS_AIRSPEED_BIAS_KI = 500 := by
    unfold GPS_AIRSPEED_BIAS_KI; norm_num
  have hb2 := saturate_bounds (airspeedErrInt + (v_air_GPS - airspeed_tas_baro) * delT)
  rw [he, hk]
  refine ⟨rfl, hb2.1, hb2.2, ?_, ?_, fun h1 h2 => saturate_inside _ h1 h2⟩
  · unfold GPS_AIRSPEED_BIAS_KI; linarith [hb2.1]
  · unfold GPS_AIRSPEED_BIAS_KI; linarith [hb2.2]

/-- Instance of `integral_saturation`: from 499 an error of 10 m/s over one
second would reach 509 and is held at 500; from 3 an error of 10 m/s over half
a second gives 8, which is kept. -/
theorem integral_saturation_witness :
    (gpsCorrection ⟨true, true, false, false, false⟩ ⟨4, 1, 1, 8, 3, 0, 1, 2, 1⟩ 100
        ⟨1, 7, 12, 0, 10, 12⟩ 499 10 20 1).2 ≤ 5 / GPS_AIRSPEED_BIAS_KI
    ∧ (gpsCorrection ⟨true, true, false, false, false⟩ ⟨4, 1, 1, 8, 3, 0, 1, 2, 1⟩ 100
        ⟨1, 7, 12, 0, 10, 12⟩ 499 10 20 1).2 = 500
    ∧ (gpsCorrection ⟨true, true, false, false, false⟩ ⟨4, 1, 1, 8, 3, 0, 1, 2, 1⟩ 100
        ⟨1, 7, 12, 0, 10, 12⟩ 3 10 20 (1 / 2)).2 = 3 + (20 - 10) * (1 / 2) :=
  ⟨(integral_saturation ⟨true, true, false, false, false⟩ ⟨4, 1, 1, 8, 3, 0, 1, 2, 1⟩ 100
      ⟨1, 7, 12, 0, 10, 12⟩ 499 10 20 1 (by decide) (by norm_num) rfl).2.2.1,
    by norm_num [gpsCorrection, integrateError, saturate, BARO_AIRSPEED_PRESENT,
      GPS_AIRSPEED_BIAS_KI],
    (integral_saturation ⟨true, true, false, false, false⟩ ⟨4, 1, 1, 8, 3, 0, 1, 2, 1⟩ 100
      ⟨1, 7, 12, 0, 10, 12⟩ 3 10 20 (1 / 2) (by decide) (by norm_num) rfl).2.2.2.2.2
      (by norm_num [GPS_AIRSPEED_BIAS_KI]) (by norm_num [GPS_AIRSPEED_BIAS_KI])⟩

end Airspeed

namespace Camera

variable {F : Type}

/-! ## Running interleavings -/

theorem run_nil (s : Store F) : run s [] = (s, []) := rfl

theorem run_cons (s : Store F) (e : Step F) (es : List (Step F)) :
    run s (e :: es) = ((run (step s e).1 es).1, (step s e).2.toList ++ (run (step s e).1 es).2) :=
  rfl

theorem run_append (s : Store F) (xs ys : List (Step F)) :
    run s (xs ++ ys) = ((run (run s xs).1 ys).1, (run s xs).2 ++ (run (run s xs).1 ys).2) := by
  induction xs generalizing s with
  | nil => simp [run_nil]
  | cons e es ih => simp [run_cons, ih, List.append_assoc]

theorem okSeqs_append (xs ys : List Acquired) : okSeqs (xs ++ ys) = okSeqs xs ++ okSeqs ys := by
  induction xs with
  | nil => rfl
  | cons r rs ih => cases r <;> simp [okSeqs, ih]

/-- The three possible outcomes of an `acquire` step. -/
theorem step_acquire_cases (s : Store F) :
    (s.unseen = true ∧
      step s Step.acquire =
        ({ s with
            cam := { s.cam with buff_in_use := s.cam.buff_ready,
                                buff_ready := s.cam.buff_in_use }
            unseen := false },
          some (Acquired.OK ⟨s.cam.buff_ready, s.seq s.cam.buff_ready⟩))) ∨
    (s.unseen = false ∧ s.cam.no_more_data = true ∧
      step s Step.acquire = (s, some Acquired.END_OF_STREAM)) ∨
    (s.unseen = false ∧ s.cam.no_more_data = false ∧ step s Step.acquire = (s, none)) := by
  unfold step acquire
  cases hu : s.unseen <;> cases hd : s.cam.no_more_data <;> simp

/-- The two possible outcomes of a `publish` step. -/
theorem step_publish_cases (s : Store F) (freq : F) :
    (s.cam.no_more_data = true ∧ step s (Step.publish freq) = (s, none)) ∨
    (s.cam.no_more_data = false ∧ step s (Step.publish freq) = (publish s freq, none)) := by
  unfold step
  cases hd : s.cam.no_more_data <;> simp

theorem step_done (s : Store F) : step s Step.done = (finish s, none) := rfl

/-! ## Role rotation -/

theorem construct_RolesDistinct (freq : F) (mode : Int) :
    RolesDistinct (construct freq mode).cam := by
  simp [RolesDistinct, construct]

theorem publish_RolesDistinct (s : Store F) (freq : F) (h : RolesDistinct s.cam) :
    RolesDistinct (publish s freq).cam := by
  obtain ⟨h1, h2, h3, h4, h5, h6⟩ := h
  simp only [RolesDistinct, publish, if_pos h6]
  exact ⟨h2, h1, h3, fun e => h4 e.symm, h6, h5⟩

theorem step_RolesDistinct (s : Store F) (e : Step F) (h : RolesDistinct s.cam) :
    RolesDistinct (step s e).1.cam := by
  cases e with
  | publish freq =>
    rcases step_publish_cases s freq with ⟨_, he⟩ | ⟨_, he⟩ <;> rw [he]
    · exact h
    · exact publish_RolesDistinct s freq h
  | acquire =>
    rcases step_acquire_cases s with ⟨_, he⟩ | ⟨_, _, he⟩ | ⟨_, _, he⟩ <;> rw [he]
    · obtain ⟨h1, h2, h3, h4, h5, h6⟩ := h
      exact ⟨h1, h3, h2, h5, h4, fun e => h6 e.symm⟩
    · exact h
    · exact h
  | done => exact h

theorem run_RolesDistinct (s : Store F) (steps : List (Step F)) (h : RolesDistinct s.cam) :
    RolesDistinct (run s steps).1.cam := by
  induction steps generalizing s with
  | nil => exact h
  | cons e es ih => exact ih _ (step_RolesDistinct s e h)

/-- C1: in every state reached from construction by any interleaving of
publish, acquire (and done) steps, the role indices `buff_write`, `buff_ready`
and `buff_in_use` each lie in {0,1,2} and are pairwise distinct. -/
theorem roles_pairwise_distinct (freq : F) (mode : Int) (steps : List (Step F)) :
    (run (construct freq mode) steps).1.cam.buff_write < 3 ∧
    (run (construct freq mode) steps).1.cam.buff_ready < 3 ∧
    (run (construct freq mode) steps).1.cam.buff_in_use < 3 ∧
    (run (construct freq mode) steps).1.cam.buff_write
      ≠ (run (construct freq mode) steps).1.cam.buff_ready ∧
    (run (construct freq mode) steps).1.cam.buff_write
      ≠ (run (construct freq mode) steps).1.cam.buff_in_use ∧
    (run (construct freq mode) steps).1.cam.buff_ready
      ≠ (run (construct freq mode) steps).1.cam.buff_in_use :=
  run_RolesDistinct _ steps (construct_RolesDistinct freq mode)

theorem thirdSlot_spec (a b : Nat) (ha : a < 3) (hb : b < 3) (hab : a ≠ b) :
    thirdSlot a b < 3 ∧ thirdSlot a b ≠ a ∧ thirdSlot a b ≠ b := by
  unfold thirdSlot
  interval_cases a <;> interval_cases b <;> simp_all

/-- C2: for a store whose Write slot is distinct from the Ready and InUse
slots, after `publish` the Ready index is the old Write index; the Write index
is the old Ready index if that differs from InUse and otherwise the one slot
that is neither the old Write nor InUse; in both cases the new Write index
differs from the new Ready and from the InUse index; InUse is unchanged and the
frame counter has grown by exactly one. -/
theorem publish_postcondition (s : Store F) (freq : F)
    (hw : s.cam.buff_write < 3) (hu : s.cam.buff_in_use < 3)
    (hwr : s.cam.buff_write ≠ s.cam.buff_ready)
    (hwu : s.cam.buff_write ≠ s.cam.buff_in_use) :
    (publish s freq).cam.buff_ready = s.cam.buff_write ∧
    (s.cam.buff_ready ≠ s.cam.buff_in_use →
      (publish s freq).cam.buff_write = s.cam.buff_ready) ∧
    (s.cam.buff_ready = s.cam.buff_in_use →
      (publish s freq).cam.buff_write < 3 ∧
      (publish s freq).cam.buff_write ≠ s.cam.buff_write ∧
      (publish s freq).cam.buff_write ≠ s.cam.buff_in_use) ∧
    (publish s freq).cam.buff_write ≠ (publish s freq).cam.buff_ready ∧
    (publish s freq).cam.buff_write ≠ (publish s freq).cam.buff_in_use ∧
    (publish s freq).cam.buff_in_use = s.cam.buff_in_use ∧
    (publish s freq).cam.image_count = s.cam.image_count + 1 := by
  have ht := thirdSlot_spec _ _ hw hu hwu
  refine ⟨rfl, fun h => ?_, fun h => ?_, ?_, ?_, rfl, rfl⟩
  · simp only [publish]; rw [if_pos h]
  · simp only [publish]; rw [if_neg (not_not.mpr h)]; exact ht
  · simp only [publish]
    split
    · exact fun e => hwr e.symm
    · exact ht.2.1
  · simp only [publish]
    split
    · assumption
    · exact ht.2.2

/-- Instance of `publish_postcondition`: the first publish after construction
(Ready differs from InUse), and a publish on a store whose Ready and InUse
indices coincide. -/
theorem publish_postcondition_witness :
    ((publish (construct (30 : Nat) 0) 30).cam.buff_ready = 1 ∧
      (publish (construct (30 : Nat) 0) 30).cam.buff_write = 2 ∧
      (publish (construct (30 : Nat) 0) 30).cam.image_count = 1) ∧
    (publish (F := Nat) ⟨⟨0, 0, 1, 4, 30, false, 0, 0, 0⟩, fun _ => 0, false⟩ 30).cam.buff_write
      ≠ (publish (F := Nat) ⟨⟨0, 0, 1, 4, 30, false, 0, 0, 0⟩, fun _ => 0, false⟩ 30).cam.buff_in_use :=
  ⟨⟨(publish_postcondition (construct (30 : Nat) 0) 30 (by decide) (by decide) (by decide)
        (by decide)).1,
      (publish_postcondition (construct (30 : Nat) 0) 30 (by decide) (by decide) (by decide)
        (by decide)).2.1 (by decide),
      (publish_postcondition (construct (30 : Nat) 0) 30 (by decide) (by decide) (by decide)
        (by decide)).2.2.2.2.2.2⟩,
    (publish_postcondition (F := Nat) ⟨⟨0, 0, 1, 4, 30, false, 0, 0, 0⟩, fun _ => 0, false⟩ 30
      (by decide) (by decide) (by decide) (by decide)).2.2.2.2.1⟩

/-! ## The frequency accessor -/

/-- C6: `getFreq` returns exactly the current `realFreq` and leaves the object
(role indices, `image_count`, `realFreq`, `no_more_data`, `mode` and every other
field) as it was, so a second call right after the first returns the same
value. -/
theorem getFreq_readonly (self : HardwareSensorCameraFirewire F) :
    (getFreq self).1 = self.realFreq ∧
    (getFreq self).2 = self ∧
    (getFreq self).2.buff_write = self.buff_write ∧
    (getFreq self).2.buff_ready = self.buff_ready ∧
    (getFreq self).2.buff_in_use = self.buff_in_use ∧
    (getFreq self).2.image_count = self.image_count ∧
    (getFreq self).2.realFreq = self.realFreq ∧
    (getFreq self).2.no_more_data = self.no_more_data ∧
    (getFreq self).2.mode = self.mode ∧
    (getFreq (getFreq self).2).1 = (getFreq self).1 :=
  ⟨rfl, rfl, rfl, rfl, rfl, rfl, rfl, rfl, rfl, rfl⟩

/-! ## Delivered sequence numbers -/

/-- From a store whose unseen Ready frame (if any) carries the current frame
counter, the delivered sequence numbers increase strictly and none is below
the counter (none equals it when the Ready frame has been seen). -/
theorem okSeqs_run (steps : List (Step F)) : ∀ s : Store F,
    (s.unseen = true → s.seq s.cam.buff_ready = s.cam.image_count) →
    (okSeqs (run s steps).2).Pairwise (· < ·) ∧
    (∀ x ∈ okSeqs (run s steps).2, s.cam.image_count ≤ x) ∧
    (s.unseen = false → ∀ x ∈ okSeqs (run s steps).2, s.cam.image_count < x) := by
  induction steps with
  | nil => intro s _; simp [run_nil, okSeqs]
  | cons e es ih =>
    intro s hI
    rw [run_cons]
    cases e with
    | publish freq =>
      rcases step_publish_cases s freq with ⟨_, he⟩ | ⟨_, he⟩ <;> rw [he]
      · simpa using ih s hI
      · obtain ⟨hp, hge, _⟩ := ih (publish s freq) (fun _ => by simp [publish])
        have hge1 : ∀ x ∈ okSeqs (run (publish s freq) es).2, s.cam.image_count + 1 ≤ x := hge
        refine ⟨by simpa using hp, ?_, ?_⟩
        · intro x hx
          have := hge1 x (by simpa using hx)
          omega
        · intro _ x hx
          have := hge1 x (by simpa using hx)
          omega
    | acquire =>
      rcases step_acquire_cases s with ⟨hu, he⟩ | ⟨_, _, he⟩ | ⟨_, _, he⟩ <;> rw [he]
      · obtain ⟨hp, _, hgt⟩ := ih
          { s with
              cam := { s.cam with buff_in_use := s.cam.buff_ready,
                                  buff_ready := s.cam.buff_in_use }
              unseen := false } (fun h => by simp at h)
        have hgt1 := hgt rfl
        have hseq := hI hu
        simp only [Option.toList_some, List.singleton_append, okSeqs]
        refine ⟨List.pairwise_cons.mpr ⟨fun x hx => ?_, hp⟩, fun x hx => ?_, fun h => ?_⟩
        · rw [hseq]; exact hgt1 x hx
        · rcases List.mem_cons.mp hx with hx | hx
          · rw [hx, hseq]
          · exact le_of_lt (hgt1 x hx)
        · rw [hu] at h; cases h
      · simpa [okSeqs] using ih s hI
      · simpa using ih s hI
    | done =>
      rw [step_done]
      simpa using ih (finish s) hI

/-- C3: for every interleaving of publish, acquire (and done) steps after
construction, the sequence numbers returned by the acquire calls that do not
return `END_OF_STREAM` are strictly increasing in the order of delivery: each
is smaller than every one delivered after it. -/
theorem acquired_seqs_strictly_increasing (freq : F) (mode : Int) (steps : List (Step F)) :
    (okSeqs (run (construct freq mode) steps).2).Pairwise (· < ·) :=
  (okSeqs_run steps (construct freq mode) (fun h => by simp [construct] at h)).1

/-! ## End of stream -/

theorem finish_of_done (s : Store F) (h : s.cam.no_more_data = true) : finish s = s := by
  obtain ⟨⟨_, _, _, _, _, d, _, _, _⟩, _, _⟩ := s
  simp only at h
  subst h
  rfl

/-- Once `done` is set no step changes the flag, the frame counter, the Write
index or any stored sequence number. -/
theorem run_of_done (steps : List (Step F)) : ∀ s : Store F,
    s.cam.no_more_data = true →
    (run s steps).1.cam.no_more_data = true ∧
    (run s steps).1.cam.image_count = s.cam.image_count ∧
    (run s steps).1.cam.buff_write = s.cam.buff_write ∧
    (run s steps).1.seq = s.seq := by
  induction steps with
  | nil => intro s h; exact ⟨h, rfl, rfl, rfl⟩
  | cons e es ih =>
    intro s h
    rw [run_cons]
    cases e with
    | publish freq =>
      rcases step_publish_cases s freq with ⟨_, he⟩ | ⟨hd, _⟩
      · rw [he]; exact ih s h
      · rw [h] at hd; cases hd
    | acquire =>
      rcases step_acquire_cases s with ⟨_, he⟩ | ⟨_, _, he⟩ | ⟨_, _, he⟩ <;> rw [he]
      · exact ih _ h
      · exact ih s h
      · exact ih s h
    | done =>
      rw [step_done, finish_of_done s h]
      exact ih s h

/-- Once `done` is set and the Ready frame has been seen, the store no longer
changes and every completed `acquire` returns `END_OF_STREAM`. -/
theorem run_of_exhausted (steps : List (Step F)) : ∀ s : Store F,
    s.cam.no_more_data = true → s.unseen = false →
    (run s steps).1 = s ∧ ∀ r ∈ (run s steps).2, r = Acquired.END_OF_STREAM := by
  induction steps with
  | nil => intro s _ _; simp [run_nil]
  | cons e es ih =>
    intro s hd hu
    rw [run_cons]
    cases e with
    | publish freq =>
      rcases step_publish_cases s freq with ⟨_, he⟩ | ⟨hd1, _⟩
      · rw [he]; simpa using ih s hd hu
      · rw [hd] at hd1; cases hd1
    | acquire =>
      rcases step_acquire_cases s with ⟨hu1, _⟩ | ⟨_, _, he⟩ | ⟨_, hd1, _⟩
      · rw [hu] at hu1; cases hu1
      · rw [he]
        obtain ⟨h1, h2⟩ := ih s hd hu
        refine ⟨h1, fun r hr => ?_⟩
        simp only [Option.toList_some, List.singleton_append, List.mem_cons] at hr
        rcases hr with hr | hr
        · exact hr
        · exact h2 r hr
      · rw [hd] at hd1; cases hd1
    | done =>
      rw [step_done, finish_of_done s hd]
      simpa using ih s hd hu

theorem acquire_eq_END_OF_STREAM (s s1 : Store F)
    (h : acquire s = some (Acquired.END_OF_STREAM, s1)) :
    s1 = s ∧ s.cam.no_more_data = true ∧ s.unseen = false := by
  unfold acquire at h
  cases hu : s.unseen <;> cases hd : s.cam.no_more_data <;> simp [hu, hd] at h
  exact ⟨h.symm, rfl, rfl⟩

theorem acquire_of_exhausted (s : Store F) (hd : s.cam.no_more_data = true)
    (hu : s.unseen = false) : acquire s = some (Acquired.END_OF_STREAM, s) := by
  unfold acquire
  simp [hd, hu]

theorem acquire_of_unseen (s : Store F) (hu : s.unseen = true) :
    acquire s = some (Acquired.OK ⟨s.cam.buff_ready, s.seq s.cam.buff_ready⟩,
      { s with
          cam := { s.cam with buff_in_use := s.cam.buff_ready,
                              buff_ready := s.cam.buff_in_use }
          unseen := false }) := by
  unfold acquire
  simp [hu]

/-- Every OK delivery uses up one publish: the deliveries, plus one if a frame
is still unseen at the end, number at most the publish steps, plus one if a
frame was unseen at the start. -/
theorem ok_count_le (steps : List (Step F)) : ∀ s : Store F,
    (okSeqs (run s steps).2).length + (if (run s steps).1.unseen then 1 else 0)
      ≤ (if s.unseen then 1 else 0) + publishCount steps := by
  induction steps with
  | nil => intro s; simp [run_nil, okSeqs, publishCount]
  | cons e es ih =>
    intro s
    rw [run_cons]
    cases e with
    | publish freq =>
      rcases step_publish_cases s freq with ⟨_, he⟩ | ⟨_, he⟩ <;> rw [he]
      · have := ih s
        simp only [Option.toList_none, List.nil_append, publishCount]
        omega
      · have := ih (publish s freq)
        have hp : (publish s freq).unseen = true := rfl
        rw [hp] at this
        simp only [Option.toList_none, List.nil_append, publishCount]
        split <;> simp_all <;> omega
    | acquire =>
      rcases step_acquire_cases s with ⟨hu, he⟩ | ⟨_, _, he⟩ | ⟨_, _, he⟩ <;> rw [he]
      · have := ih { s with
            cam := { s.cam with buff_in_use := s.cam.buff_ready,
                                buff_ready := s.cam.buff_in_use }
            unseen := false }
        simp only [Option.toList_some, List.singleton_append, okSeqs, publishCount,
          List.length_cons, hu] at this ⊢
        simp at this
        simp
        omega
      · simpa [okSeqs, publishCount] using ih s
      · simpa [publishCount] using ih s
    | done =>
      rw [step_done]
      simpa [publishCount] using ih (finish s)

/-- After `done`, at most the one frame still unseen is delivered. -/
theorem ok_count_of_done (steps : List (Step F)) : ∀ s : Store F,
    s.cam.no_more_data = true →
    (okSeqs (run s steps).2).length ≤ (if s.unseen then 1 else 0) := by
  induction steps with
  | nil => intro s _; simp [run_nil, okSeqs]
  | cons e es ih =>
    intro s hd
    rw [run_cons]
    cases e with
    | publish freq =>
      rcases step_publish_cases s freq with ⟨_, he⟩ | ⟨hd1, _⟩
      · rw [he]; simpa using ih s hd
      · rw [hd] at hd1; cases hd1
    | acquire =>
      rcases step_acquire_cases s with ⟨hu, he⟩ | ⟨_, _, he⟩ | ⟨_, _, he⟩ <;> rw [he]
      · have := ih { s with
            cam := { s.cam with buff_in_use := s.cam.buff_ready,
                                buff_ready := s.cam.buff_in_use }
            unseen := false } hd
        simp only [Option.toList_some, List.singleton_append, okSeqs, List.length_cons, hu]
        simp at this
        simp [this]
      · simpa [okSeqs] using ih s hd
      · simpa using ih s hd
    | done =>
      rw [step_done, finish_of_done s hd]
      simpa using ih s hd

/-- C4: `done` is terminal.  (1) From a store with `no_more_data` set, no
interleaving clears the flag, advances the frame counter, moves the Write index
or stamps a buffer.  (2) Once an `acquire` has returned `END_OF_STREAM`, every
`acquire` completed later returns `END_OF_STREAM`, and the next one does so
without blocking.  (3) When `pre` (holding K publish steps) is followed by done
and then by any further steps, at most K acquires return OK in all; afterwards
an `acquire` returns OK with the Ready frame exactly when that frame is unseen
and `END_OF_STREAM` otherwise, never blocking. -/
theorem done_is_terminal :
    (∀ (s : Store F) (steps : List (Step F)), s.cam.no_more_data = true →
      (run s steps).1.cam.no_more_data = true ∧
      (run s steps).1.cam.image_count = s.cam.image_count ∧
      (run s steps).1.cam.buff_write = s.cam.buff_write ∧
      (run s steps).1.seq = s.seq) ∧
    (∀ (s s1 : Store F) (steps : List (Step F)),
      acquire s = some (Acquired.END_OF_STREAM, s1) →
      (∀ r ∈ (run s1 steps).2, r = Acquired.END_OF_STREAM) ∧
      acquire (run s1 steps).1 = some (Acquired.END_OF_STREAM, (run s1 steps).1)) ∧
    (∀ (freq : F) (mode : Int) (pre post : List (Step F)),
      (okSeqs (run (construct freq mode) (pre ++ Step.done :: post)).2).length
        ≤ publishCount pre ∧
      ((run (construct freq mode) (pre ++ Step.done :: post)).1.unseen = true →
        ∃ s1, acquire (run (construct freq mode) (pre ++ Step.done :: post)).1 =
          some (Acquired.OK
            ⟨(run (construct freq mode) (pre ++ Step.done :: post)).1.cam.buff_ready,
              (run (construct freq mode) (pre ++ Step.done :: post)).1.seq
                (run (construct freq mode) (pre ++ Step.done :: post)).1.cam.buff_ready⟩,
            s1)) ∧
      ((run (construct freq mode) (pre ++ Step.done :: post)).1.unseen = false →
        acquire (run (construct freq mode) (pre ++ Step.done :: post)).1 =
          some (Acquired.END_OF_STREAM,
            (run (construct freq mode) (pre ++ Step.done :: post)).1))) := by
  refine ⟨fun s steps h => run_of_done steps s h, fun s s1 steps h => ?_,
    fun freq mode pre post => ?_⟩
  · obtain ⟨h1, hd, hu⟩ := acquire_eq_END_OF_STREAM s s1 h
    subst h1
    obtain ⟨he, hr⟩ := run_of_exhausted steps s1 hd hu
    exact ⟨hr, by rw [he]; exact acquire_of_exhausted s1 hd hu⟩
  · have hdone : (finish (run (construct freq mode) pre).1).cam.no_more_data = true := rfl
    have hrun : run (construct freq mode) (pre ++ Step.done :: post)
        = ((run (finish (run (construct freq mode) pre).1) post).1,
            (run (construct freq mode) pre).2
              ++ (run (finish (run (construct freq mode) pre).1) post).2) := by
      rw [run_append, run_cons, step_done]
      simp
    rw [hrun]
    refine ⟨?_, fun hu => ⟨_, acquire_of_unseen _ hu⟩, fun hu => ?_⟩
    · have h1 := ok_count_le pre (construct freq mode)
      have h2 := ok_count_of_done post (finish (run (construct freq mode) pre).1) hdone
      have hu0 : (construct freq mode).unseen = false := rfl
      have hf : (finish (run (construct freq mode) pre).1).unseen
          = (run (construct freq mode) pre).1.unseen := rfl
      rw [hu0] at h1
      rw [hf] at h2
      simp only [okSeqs_append, List.length_append]
      simp at h1
      omega
    · exact acquire_of_exhausted _ (run_of_done post _ hdone).1 hu

/-- Instance of `done_is_terminal`: two publishes, an acquire, a third publish
and done; the acquires that follow deliver frame 3 once and then
`END_OF_STREAM`, and the two OK results stay below the three publishes. -/
theorem done_is_terminal_witness :
    (run (construct (0 : Nat) 0)
        ([Step.publish 1, Step.publish 2, Step.acquire, Step.acquire, Step.publish 3]
          ++ Step.done :: [Step.acquire, Step.publish 4, Step.acquire, Step.acquire])).2
      = [Acquired.OK ⟨2, 2⟩, Acquired.OK ⟨1, 3⟩, Acquired.END_OF_STREAM,
          Acquired.END_OF_STREAM]
    ∧ (okSeqs (run (construct (0 : Nat) 0)
        ([Step.publish 1, Step.publish 2, Step.acquire, Step.acquire, Step.publish 3]
          ++ Step.done :: [Step.acquire, Step.publish 4, Step.acquire, Step.acquire])).2).length
      ≤ 3 :=
  ⟨by decide,
    ((done_is_terminal (F := Nat)).2.2 0 0
      [Step.publish 1, Step.publish 2, Step.acquire, Step.acquire, Step.publish 3]
      [Step.acquire, Step.publish 4, Step.acquire, Step.acquire]).1⟩

/-! ## Latest-value delivery -/

/-- A burst of publishes on a store that is not done: every one takes effect,
nothing is delivered, and afterwards the Ready frame is unseen and carries the
frame counter. -/
theorem run_publishes (fs : List F) : ∀ s : Store F,
    s.cam.no_more_data = false →
    (run s (fs.map Step.publish)).1.cam.no_more_data = false ∧
    (run s (fs.map Step.publish)).1.cam.image_count = s.cam.image_count + fs.length ∧
    (fs ≠ [] →
      (run s (fs.map Step.publish)).1.unseen = true ∧
      (run s (fs.map Step.publish)).1.seq (run s (fs.map Step.publish)).1.cam.buff_ready
        = s.cam.image_count + fs.length) := by
  induction fs with
  | nil => intro s h; simp [run_nil, h]
  | cons f fs ih =>
    intro s h
    rw [List.map_cons, run_cons]
    rcases step_publish_cases s f with ⟨hd, _⟩ | ⟨_, he⟩
    · rw [h] at hd; cases hd
    · rw [he]
      obtain ⟨h1, h2, h3⟩ := ih (publish s f) h
      have hc : (publish s f).cam.image_count = s.cam.image_count + 1 := rfl
      rw [hc] at h2 h3
      refine ⟨h1, by rw [h2, List.length_cons]; omega, fun _ => ?_⟩
      by_cases hfs : fs = []
      · subst hfs
        simp [run_nil, publish]
      · obtain ⟨h4, h5⟩ := h3 hfs
        exact ⟨h4, by rw [h5, List.length_cons]; omega⟩

theorem run_publishes_last (fs : List F) (s : Store F) (hd : s.cam.no_more_data = false)
    (hn : fs ≠ []) :
    (run s (fs.map Step.publish)).1.cam.buff_ready
      = (run s (fs.dropLast.map Step.publish)).1.cam.buff_write := by
  have hsplit : fs.map Step.publish
      = fs.dropLast.map Step.publish ++ [Step.publish (fs.getLast hn)] := by
    conv_lhs => rw [← List.dropLast_append_getLast hn]
    simp
  rw [hsplit, run_append, run_cons, run_nil]
  rcases step_publish_cases (run s (fs.dropLast.map Step.publish)).1 (fs.getLast hn)
    with ⟨hd1, _⟩ | ⟨_, he⟩
  · rw [(run_publishes fs.dropLast s hd).1] at hd1; cases hd1
  · rw [he]; rfl

/-- C5: on a store that is not done, after `n ≥ 1` publishes with no acquire
between them (the `k`-th of them stamps its frame with sequence number
`image_count + k`), the next `acquire` returns OK with the slot written by the
last of them and the sequence number `image_count + n`; every sequence number
delivered from then on is at least `image_count + n`, so none of the `n - 1`
earlier frames is delivered; and a publish step on a store that is not done
takes effect whether or not the Ready frame has been seen. -/
theorem latest_value (s : Store F) (fs : List F)
    (hd : s.cam.no_more_data = false) (hn : fs ≠ []) :
    (∀ k, 1 ≤ k → k ≤ fs.length →
      (run s ((fs.take k).map Step.publish)).1.seq
          (run s ((fs.take k).map Step.publish)).1.cam.buff_ready
        = s.cam.image_count + k) ∧
    (∃ s1, acquire (run s (fs.map Step.publish)).1 =
      some (Acquired.OK ⟨(run s (fs.dropLast.map Step.publish)).1.cam.buff_write,
        s.cam.image_count + fs.length⟩, s1)) ∧
    (∀ steps : List (Step F), ∀ x ∈ okSeqs (run (run s (fs.map Step.publish)).1 steps).2,
      s.cam.image_count + fs.length ≤ x) ∧
    (∀ (steps : List (Step F)) (k : Nat), 1 ≤ k → k < fs.length →
      s.cam.image_count + k ∉ okSeqs (run (run s (fs.map Step.publish)).1 steps).2) ∧
    (∀ (t : Store F) (f : F), t.cam.no_more_data = false →
      (step t (Step.publish f)).1 = publish t f ∧
      (step t (Step.publish f)).1.cam.image_count = t.cam.image_count + 1) := by
  obtain ⟨_, hcount, hlast⟩ := run_publishes fs s hd
  obtain ⟨hu, hseq⟩ := hlast hn
  have hbound : ∀ steps : List (Step F),
      ∀ x ∈ okSeqs (run (run s (fs.map Step.publish)).1 steps).2,
        s.cam.image_count + fs.length ≤ x := by
    intro steps x hx
    have := (okSeqs_run steps (run s (fs.map Step.publish)).1
      (fun _ => by rw [hseq, hcount])).2.1 x hx
    rw [hcount] at this
    exact this
  refine ⟨fun k hk1 hk2 => ?_, ?_, hbound, fun steps k _ hk hmem => ?_, fun t f ht => ?_⟩
  · have hne : fs.take k ≠ [] := by
      intro h
      rcases List.take_eq_nil_iff.mp h with h | h
      · omega
      · exact hn h
    have := ((run_publishes (fs.take k) s hd).2.2 hne).2
    rw [this, List.length_take]
    omega
  · rw [acquire_of_unseen _ hu, hseq, run_publishes_last fs s hd hn]
    exact ⟨_, rfl⟩
  · have := hbound steps _ hmem
    omega
  · rcases step_publish_cases t f with ⟨hd1, _⟩ | ⟨_, he⟩
    · rw [ht] at hd1; cases hd1
    · rw [he]; exact ⟨rfl, rfl⟩

/-- Instance of `latest_value`: three publishes after construction, then an
acquire, a fourth publish and another acquire: frame 3 (in slot 1) and frame 4
(in slot 2) are delivered, frames 1 and 2 never. -/
theorem latest_value_witness :
    (∃ s1, acquire (run (construct (0 : Nat) 0)
        ([10, 20, 30].map Step.publish)).1 = some (Acquired.OK ⟨1, 3⟩, s1))
    ∧ (run (run (construct (0 : Nat) 0) ([10, 20, 30].map Step.publish)).1
        [Step.acquire, Step.acquire, Step.publish 40, Step.acquire]).2
      = [Acquired.OK ⟨1, 3⟩, Acquired.OK ⟨2, 4⟩] :=
  ⟨(latest_value (construct (0 : Nat) 0) [10, 20, 30] rfl (by decide)).2.1, by decide⟩

end Camera
